import Mathlib

/-!
Shallow embedding of the websauna CRUD-traversal slice:

* `src/websauna/system/crud/__init__.py` — `Resource`, `CRUD` and their methods
  (`get_path`, `get_title`, `make_resource`, `wrap_to_resource`,
  `traverse_to_object`, `__getitem__`).
* `src/websauna/system/admin/admin.py` — `Admin.__getitem__` and
  `Admin.get_admin_object_url`.
* The URL mapper (`websauna.system.crud.urlmapper.Base64UUIDMapper`) and the
  lineage helper (`websauna.system.core.traversal.Resource.make_lineage`) are
  imported by the source but their modules are not part of this repository
  slice; they are modelled from the spec where a claim needs them.

Python exceptions are modelled by `Except Err`; a raised exception is an
`Except.error` value propagated by monadic bind, exactly as an uncaught Python
exception propagates out of nested calls (none of the embedded source
functions contain a `try`/`except`).
-/

set_option autoImplicit false

namespace Websauna

/-- Exceptions that the embedded code can raise.  Each constructor models one
concrete raise site or exception class of the Python source. -/
inductive Err where
  /-- Python `KeyError`, raised by `CRUD.__getitem__` (crud/__init__.py line
  143) and by the dict lookup in `Admin.__getitem__` (admin.py line 114). -/
  | keyError
  /-- Python `NotImplementedError`, raised by `CRUD.make_resource` when the
  subclass supplies no `Resource` attribute (crud/__init__.py line 90). -/
  | notImplementedError
  /-- The `AssertionError` of `assert hasattr(self, "__parent__")` in
  `Resource.get_path` (crud/__init__.py line 29): lineage was never set. -/
  | assertLineage
  /-- The `AssertionError` of `assert type(path) == str` in
  `CRUD.wrap_to_resource` (crud/__init__.py line 97): the mapper did not
  return a well-formed path string.  The spec's error taxonomy (spec §7)
  files this defect under `MappingError`. -/
  | assertPathType
  /-- A recoverable "no such object" signal raised inside `fetch_object` or
  `get_id_from_path` (spec §7 `NotFound`: id well-formed but no matching
  row). -/
  | notFound
  /-- The spec §7 `MappingError`: a Path Mapper could not encode an object or
  decode a path whose shape claims validity but fails deeper checks. -/
  | mappingError
  deriving Repr, DecidableEq

/-- A Python value as far as the embedded code inspects it: either a `str`
or some non-string value.  `CRUD.wrap_to_resource` checks
`type(path) == str` on the mapper's result, so the embedding must allow the
mapper to return a non-string. -/
inductive PyVal where
  | str (s : String)
  | nonStr
  deriving Repr, DecidableEq

/-- URL mapper interface (spec §4.1).  The mapper implementation
(`websauna.system.crud.urlmapper`) is outside this repository slice, so the
CRUD methods are embedded over an arbitrary mapper; the concrete
`Base64UUIDMapper` is modelled from the spec further below.  `Obj` is the
domain-object type, `Id` the identifier type. -/
structure Mapper (Obj Id : Type) where
  /-- Cheap syntactic check whether a path segment can be an encoded id. -/
  is_id : String → Bool
  /-- Decode a path segment to an identifier; may raise. -/
  get_id_from_path : String → Except Err Id
  /-- Encode an object to a path segment; may raise, and may return a
  non-string value (which `wrap_to_resource` then rejects). -/
  get_path_from_object : Obj → Except Err PyVal

/-- The state of a `CRUD` collection instance (crud/__init__.py class `CRUD`):
its mapper, the storage-backed `fetch_object` supplied by a concrete
subclass, and whether the subclass supplies a `Resource` attribute
(the `hasattr(self, "Resource")` check in `make_resource`). -/
structure Crud (Obj Id : Type) where
  mapper : Mapper Obj Id
  /-- `fetch_object(id)` of the concrete storage-backed subclass; the base
  class's own body is abstract (`raise NotImplementedError`). -/
  fetch_object : Id → Except Err Obj
  /-- True iff `hasattr(self, "Resource")` holds for this subclass. -/
  has_Resource : Bool

/-- One object in CRUD traversing (crud/__init__.py class `Resource`).
`Resource.__init__` stores the wrapped object; the `__parent__` and
`__name__` attributes do not exist until `make_lineage` sets them, which the
embedding models with `Option` fields that start as `none`. -/
structure Resource (Obj Id : Type) where
  obj : Obj
  __parent__ : Option (Crud Obj Id)
  __name__ : Option String

namespace Resource

variable {Obj Id : Type}

/-- `Resource(obj)`: the constructor sets only `self.obj`
(crud/__init__.py line 21); no lineage exists yet. -/
def init (obj : Obj) : Resource Obj Id :=
  { obj := obj, __parent__ := none, __name__ := none }

/-- `Resource.get_object`: return the wrapped database object
(crud/__init__.py line 25). -/
def get_object (r : Resource Obj Id) : Obj :=
  r.obj

/-- Modelled from the spec: `make_lineage` lives in
`websauna.system.core.traversal` which is not part of this slice; per spec
§4.2 it sets the child's lineage to `parent = self`, `name = path`. -/
def make_lineage (parent : Crud Obj Id) (child : Resource Obj Id) (name : String) :
    Resource Obj Id :=
  { child with __parent__ := some parent, __name__ := some name }

/-- `Resource.get_path` (crud/__init__.py lines 27-33): assert that lineage
was set, then extract the traverse path from the parent CRUD's mapper. -/
def get_path (r : Resource Obj Id) : Except Err PyVal :=
  match r.__parent__ with
  | none => .error .assertLineage
  | some crud => crud.mapper.get_path_from_object r.obj

/-- `Resource.get_title` (crud/__init__.py lines 39-44): by default the URL
path, i.e. it delegates to `get_path`. -/
def get_title (r : Resource Obj Id) : Except Err PyVal :=
  r.get_path

end Resource

namespace Crud

variable {Obj Id : Type}

/-- `CRUD.make_resource` (crud/__init__.py lines 79-90): if the subclass has
a `Resource` attribute, wrap the object with it; otherwise raise
`NotImplementedError`. -/
def make_resource (c : Crud Obj Id) (obj : Obj) : Except Err (Resource Obj Id) :=
  if c.has_Resource then
    .ok (Resource.init obj)
  else
    .error .notImplementedError

/-- `CRUD.wrap_to_resource` (crud/__init__.py lines 92-99): make the
resource, compute the path via the mapper, assert the path is a string, and
set the lineage `(parent = self, name = path)`. -/
def wrap_to_resource (c : Crud Obj Id) (obj : Obj) : Except Err (Resource Obj Id) := do
  let inst ← c.make_resource obj
  let path ← c.mapper.get_path_from_object obj
  match path with
  | .str s => pure (Resource.make_lineage c inst s)
  | .nonStr => .error .assertPathType

/-- `CRUD.traverse_to_object` (crud/__init__.py lines 101-111): decode the
path to an id, fetch the object, wrap it to a resource. -/
def traverse_to_object (c : Crud Obj Id) (path : String) : Except Err (Resource Obj Id) := do
  let id ← c.mapper.get_id_from_path path
  let obj ← c.fetch_object id
  c.wrap_to_resource obj

/-- `CRUD.__getitem__` (crud/__init__.py lines 133-143): if the mapper says
the segment is an id, traverse to the object, else raise `KeyError` to
signal that the segment is not part of this CRUD. -/
def getitem (c : Crud Obj Id) (path : String) : Except Err (Resource Obj Id) :=
  if c.mapper.is_id path then
    c.traverse_to_object path
  else
    .error .keyError

end Crud

/-! Model of the default URL mapper.

`CRUD.mapper = Base64UUIDMapper()` (crud/__init__.py line 77) and the comment
above it say the default mapper base64-encodes the model's `uuid` attribute
into the URL.  The module `websauna.system.crud.urlmapper` itself is not part
of this repository slice, so the mapper is modelled from the spec: an opaque
URL-safe base64 encoding of a 128-bit identifier, with
`decode(encode(id)) == id` as the required law (spec §3, §4.1).  A uuid is a
`Nat` below `2^128`; its 16 big-endian bytes are encoded with the URL-safe
base64 alphabet, padding stripped (22 characters). -/

/-- The URL-safe base64 alphabet: sextet `n < 64` to character
(`A`-`Z`, `a`-`z`, `0`-`9`, `-`, `_`). -/
def sextetChar (n : Nat) : Char :=
  if n < 26 then Char.ofNat (65 + n)
  else if n < 52 then Char.ofNat (97 + (n - 26))
  else if n < 62 then Char.ofNat (48 + (n - 52))
  else if n = 62 then Char.ofNat 45
  else Char.ofNat 95

/-- Inverse of the URL-safe base64 alphabet; `none` on a character outside
the alphabet. -/
def charSextet (c : Char) : Option Nat :=
  if 65 ≤ c.toNat ∧ c.toNat ≤ 90 then some (c.toNat - 65)
  else if 97 ≤ c.toNat ∧ c.toNat ≤ 122 then some (c.toNat - 97 + 26)
  else if 48 ≤ c.toNat ∧ c.toNat ≤ 57 then some (c.toNat - 48 + 52)
  else if c.toNat = 45 then some 62
  else if c.toNat = 95 then some 63
  else none

/-- Base64 encoding of a byte list into sextets, final partial group encoded
without padding (as `base64.urlsafe_b64encode` followed by stripping `=`). -/
def toSextets : List Nat → List Nat
  | [] => []
  | [b1] => [b1 / 4, b1 % 4 * 16]
  | [b1, b2] => [b1 / 4, b1 % 4 * 16 + b2 / 16, b2 % 16 * 4]
  | b1 :: b2 :: b3 :: rest =>
      b1 / 4 :: (b1 % 4 * 16 + b2 / 16) :: (b2 % 16 * 4 + b3 / 64) :: b3 % 64
        :: toSextets rest

/-- Base64 decoding of a sextet list back into bytes (a lone trailing sextet
carries no full byte). -/
def fromSextets : List Nat → List Nat
  | [] => []
  | [_] => []
  | [c1, c2] => [c1 * 4 + c2 / 16]
  | [c1, c2, c3] => [c1 * 4 + c2 / 16, c2 % 16 * 16 + c3 / 4]
  | c1 :: c2 :: c3 :: c4 :: rest =>
      (c1 * 4 + c2 / 16) :: (c2 % 16 * 16 + c3 / 4) :: (c3 % 4 * 64 + c4)
        :: fromSextets rest

/-- Map a partial function over a list, failing if it fails anywhere. -/
def mapOptions {α β : Type} (f : α → Option β) : List α → Option (List β)
  | [] => some []
  | a :: as =>
      match f a with
      | some b => (mapOptions f as).map (b :: ·)
      | none => none

/-- The `k` big-endian bytes of a number below `2 ^ (8 * k)`: the top byte
followed by the bytes of the remainder. -/
def natBytesBE : Nat → Nat → List Nat
  | 0, _ => []
  | k + 1, n => n / 2 ^ (8 * k) % 256 :: natBytesBE k (n % 2 ^ (8 * k))

/-- The 16 big-endian bytes of a 128-bit identifier. -/
def uuidBytes (u : Nat) : List Nat :=
  natBytesBE 16 u

/-- Recombine big-endian bytes into a number. -/
def bytesToNat (bs : List Nat) : Nat :=
  bs.foldl (fun acc b => acc * 256 + b) 0

/-- Modelled from the spec: `uuid_to_slug` of the missing
`websauna.utils.slug` / `urlmapper` modules — base64-url-encode the 16 uuid
bytes and strip the padding, giving a 22-character slug. -/
def uuid_to_slug (u : Nat) : String :=
  String.mk ((toSextets (uuidBytes u)).map sextetChar)

/-- Modelled from the spec: `slug_to_uuid` — decode a 22-character
base64-url slug back to the 128-bit identifier; any malformed input (wrong
length or a character outside the alphabet) raises the decoding failure the
spec taxonomy calls `MappingError`. -/
def slug_to_uuid (s : String) : Except Err Nat :=
  match mapOptions charSextet s.data with
  | none => .error .mappingError
  | some sextets =>
      if s.length = 22 then
        .ok (bytesToNat (fromSextets sextets))
      else
        .error .mappingError

/-- Modelled from the spec: the default `Base64UUIDMapper`
(crud/__init__.py line 77) over objects whose 128-bit `uuid` attribute is
read by `uuid_of`.  `is_id` is the cheap syntactic check (does the segment
decode), `get_id_from_path` decodes, `get_path_from_object` encodes the
object's uuid (spec §4.1). -/
def Base64UUIDMapper {Obj : Type} (uuid_of : Obj → Nat) : Mapper Obj Nat where
  is_id := fun path =>
    match slug_to_uuid path with
    | .ok _ => true
    | .error _ => false
  get_id_from_path := slug_to_uuid
  get_path_from_object := fun o => .ok (.str (uuid_to_slug (uuid_of o)))

/-! Embedding of `src/websauna/system/admin/admin.py`.

`Admin.get_admin_object_url` branches on Python truthiness (`if not obj:`),
so the admin side models its input objects as Python values with an explicit
truth value. -/

/-- A Python object as far as `Admin.get_admin_object_url` inspects it:
only its truth value matters (`if not obj:`).  `none` is Python `None`;
`int`, `str` and `list` model values whose truthiness follows Python's
rules; `instanceObj` models an ordinary model instance (always truthy). -/
inductive PyObj where
  | none
  | int (n : Int)
  | str (s : String)
  | list (n : Nat)
  | instanceObj (ident : Nat)
  deriving Repr, DecidableEq

/-- Python truthiness for `PyObj`: `None`, `0`, the empty string and the
empty container are falsy; everything else is truthy. -/
def PyObj.truthy : PyObj → Bool
  | .none => false
  | .int n => n != 0
  | .str s => s != ""
  | .list n => n != 0
  | .instanceObj _ => true

/-- Python truthiness of the `view_name` argument (a string or `None`):
`if view_name:` is false for `None` and for the empty string. -/
def strOptTruthy : Option String → Bool
  | Option.none => false
  | Option.some s => s != ""

/-- The state of an `Admin` root instance (admin.py class `Admin`) as far as
the claims need it: the `children` dict (modelled as an association list),
plus the two external collaborators `get_admin_object_url` calls:
`get_admin_resource` (defined elsewhere in the project, outside this slice)
and the traversal host's `request.resource_url(res, *elements)`. -/
structure Admin (Child Res : Type) where
  /-- Registered child resources (`self.children`, admin.py line 49). -/
  children : List (String × Child)
  /-- Modelled from the spec: `get_admin_resource` is declared outside this
  slice; per spec §4.3 it resolves an object to its registered admin
  wrapper. -/
  get_admin_resource : PyObj → Res
  /-- The traversal host's `request.resource_url(res, *elements)`; the list
  holds the optional trailing view name. -/
  resource_url : Res → List String → String

namespace Admin

variable {Child Res : Type}

/-- `Admin.__getitem__` (admin.py lines 112-115): `child = self.children[name]`
— a dict lookup that raises `KeyError` when the name is absent. -/
def getitem (a : Admin Child Res) (name : String) : Except Err Child :=
  match a.children.lookup name with
  | Option.some child => .ok child
  | Option.none => .error .keyError

/-- `Admin.get_admin_object_url` (admin.py lines 64-81): return `None` when
`obj` is falsy, otherwise resolve the admin resource and return its URL,
with the view name appended when `view_name` is truthy. -/
def get_admin_object_url (a : Admin Child Res) (obj : PyObj)
    (view_name : Option String) : Option String :=
  if !obj.truthy then
    Option.none
  else
    let res := a.get_admin_resource obj
    if strOptTruthy view_name then
      Option.some (a.resource_url res [view_name.getD ""])
    else
      Option.some (a.resource_url res [])

end Admin

/-! Concrete instances used to witness the theorems below on evaluable
inputs. -/

/-- A concrete CRUD collection over `Nat` objects whose uuid is the object
itself: the default base64-uuid mapper, a storage stub that knows the rows
below 100, and a subclass-supplied `Resource` attribute. -/
def sampleCrud : Crud Nat Nat where
  mapper := Base64UUIDMapper (fun o => o)
  fetch_object := fun i => if i < 100 then .ok i else .error .notFound
  has_Resource := true

/-- `sampleCrud` without a subclass-supplied `Resource` attribute
(`hasattr(self, "Resource")` is false). -/
def noResourceCrud : Crud Nat Nat :=
  { sampleCrud with has_Resource := false }

/-- `sampleCrud` with a broken mapper whose `get_path_from_object` returns a
non-string value (e.g. Python `None`). -/
def badPathCrud : Crud Nat Nat :=
  { sampleCrud with
      mapper := { sampleCrud.mapper with get_path_from_object := fun _ => .ok .nonStr } }

/-- A concrete admin root with two registered children and stub external
collaborators: every object resolves to the resource `"res"`, and
`resource_url` renders the resource name followed by the optional view
name. -/
def sampleAdmin : Admin Nat String where
  children := [("user", 1), ("group", 2)]
  get_admin_resource := fun _ => "res"
  resource_url := fun r vs => r ++ "/" ++ String.join vs

/-! Helper lemmas about the base64 codec of the modelled mapper. -/

theorem charSextet_sextetChar {n : Nat} (h : n < 64) :
    charSextet (sextetChar n) = some n := by
  have h64 : ∀ m : Fin 64, charSextet (sextetChar m.val) = some m.val := by decide
  exact h64 ⟨n, h⟩

theorem toSextets_lt :
    ∀ bs : List Nat, (∀ b ∈ bs, b < 256) → ∀ s ∈ toSextets bs, s < 64 := by
  intro bs
  induction bs using toSextets.induct with
  | case1 =>
    intro _ s hs
    simp [toSextets] at hs
  | case2 b1 =>
    intro hb s hs
    have h1 : b1 < 256 := hb b1 (by simp)
    simp [toSextets] at hs
    rcases hs with h | h <;> omega
  | case3 b1 b2 =>
    intro hb s hs
    have h1 : b1 < 256 := hb b1 (by simp)
    have h2 : b2 < 256 := hb b2 (by simp)
    simp [toSextets] at hs
    rcases hs with h | h | h <;> omega
  | case4 b1 b2 b3 rest ih =>
    intro hb s hs
    have h1 : b1 < 256 := hb b1 (by simp)
    have h2 : b2 < 256 := hb b2 (by simp)
    have h3 : b3 < 256 := hb b3 (by simp)
    have ih := ih (fun b hbm => hb b (by simp [hbm]))
    simp [toSextets] at hs
    rcases hs with h | h | h | h | h
    · omega
    · omega
    · omega
    · omega
    · exact ih s h

theorem mapOptions_charSextet {l : List Nat} (h : ∀ s ∈ l, s < 64) :
    mapOptions charSextet (l.map sextetChar) = some l := by
  induction l with
  | nil => rfl
  | cons a as ih =>
    have ha : a < 64 := h a (List.mem_cons_self a as)
    have ih := ih (fun s hs => h s (List.mem_cons_of_mem a hs))
    simp [mapOptions, charSextet_sextetChar ha, ih]

theorem fromSextets_toSextets :
    ∀ bs : List Nat, (∀ b ∈ bs, b < 256) → fromSextets (toSextets bs) = bs := by
  intro bs
  induction bs using toSextets.induct with
  | case1 =>
    intro _
    rfl
  | case2 b1 =>
    intro hb
    have h1 : b1 < 256 := hb b1 (by simp)
    simp [toSextets, fromSextets]
    omega
  | case3 b1 b2 =>
    intro hb
    have h1 : b1 < 256 := hb b1 (by simp)
    have h2 : b2 < 256 := hb b2 (by simp)
    simp [toSextets, fromSextets]
    constructor <;> omega
  | case4 b1 b2 b3 rest ih =>
    intro hb
    have h1 : b1 < 256 := hb b1 (by simp)
    have h2 : b2 < 256 := hb b2 (by simp)
    have h3 : b3 < 256 := hb b3 (by simp)
    have ih := ih (fun b hbm => hb b (by simp [hbm]))
    simp [toSextets, fromSextets, ih]
    refine ⟨?_, ?_, ?_⟩ <;> omega

theorem natBytesBE_lt : ∀ (k n : Nat), ∀ b ∈ natBytesBE k n, b < 256 := by
  intro k
  induction k with
  | zero =>
    intro n b hb
    simp [natBytesBE] at hb
  | succ k ih =>
    intro n b hb
    simp only [natBytesBE, List.mem_cons] at hb
    rcases hb with rfl | hb
    · exact Nat.mod_lt _ (by norm_num)
    · exact ih _ b hb

theorem uuidBytes_lt (u : Nat) : ∀ b ∈ uuidBytes u, b < 256 :=
  natBytesBE_lt 16 u

theorem natBytesBE_length : ∀ (k n : Nat), (natBytesBE k n).length = k := by
  intro k
  induction k with
  | zero => intro n; rfl
  | succ k ih => intro n; simp [natBytesBE, ih]

theorem toSextets_length :
    ∀ bs : List Nat, (toSextets bs).length = (4 * bs.length + 2) / 3 := by
  intro bs
  induction bs using toSextets.induct with
  | case1 => rfl
  | case2 b1 => simp [toSextets]
  | case3 b1 b2 => simp [toSextets]
  | case4 b1 b2 b3 rest ih =>
    simp only [toSextets, List.length_cons, ih]
    omega

theorem toSextets_uuidBytes_length (u : Nat) :
    (toSextets (uuidBytes u)).length = 22 := by
  rw [toSextets_length, uuidBytes, natBytesBE_length]

theorem foldl_natBytesBE :
    ∀ (k n acc : Nat), n < 2 ^ (8 * k) →
      List.foldl (fun a b => a * 256 + b) acc (natBytesBE k n) =
        acc * 2 ^ (8 * k) + n := by
  intro k
  induction k with
  | zero =>
    intro n acc h
    simp only [natBytesBE, List.foldl]
    omega
  | succ k ih =>
    intro n acc h
    have hp : 0 < 2 ^ (8 * k) := Nat.pos_pow_of_pos _ (by norm_num)
    have hlt : n % 2 ^ (8 * k) < 2 ^ (8 * k) := Nat.mod_lt _ hp
    have hpow : 2 ^ (8 * (k + 1)) = 2 ^ (8 * k) * 256 := by
      rw [show 8 * (k + 1) = 8 * k + 8 by ring, pow_add]
      norm_num
    have hq : n / 2 ^ (8 * k) < 256 := by
      rw [Nat.div_lt_iff_lt_mul hp]
      calc n < 2 ^ (8 * (k + 1)) := h
        _ = 2 ^ (8 * k) * 256 := hpow
        _ = 256 * 2 ^ (8 * k) := by ring
    have hmod : n / 2 ^ (8 * k) % 256 = n / 2 ^ (8 * k) := Nat.mod_eq_of_lt hq
    simp only [natBytesBE, List.foldl]
    rw [ih _ _ hlt, hmod, hpow]
    have hdm : 2 ^ (8 * k) * (n / 2 ^ (8 * k)) + n % 2 ^ (8 * k) = n :=
      Nat.div_add_mod n (2 ^ (8 * k))
    conv_rhs => rw [← hdm]
    ring

theorem bytesToNat_uuidBytes {u : Nat} (h : u < 2 ^ 128) :
    bytesToNat (uuidBytes u) = u := by
  have h128 : u < 2 ^ (8 * 16) := by norm_num at h ⊢; exact h
  have := foldl_natBytesBE 16 u 0 h128
  simpa [bytesToNat, uuidBytes] using this

theorem slug_to_uuid_uuid_to_slug {u : Nat} (h : u < 2 ^ 128) :
    slug_to_uuid (uuid_to_slug u) = .ok u := by
  have hbytes : ∀ b ∈ uuidBytes u, b < 256 := uuidBytes_lt u
  have hsex : ∀ s ∈ toSextets (uuidBytes u), s < 64 :=
    toSextets_lt (uuidBytes u) hbytes
  have hdata : (uuid_to_slug u).data = (toSextets (uuidBytes u)).map sextetChar := rfl
  have hlen : (uuid_to_slug u).length = 22 := by
    show (uuid_to_slug u).data.length = 22
    rw [hdata, List.length_map, toSextets_uuidBytes_length]
  simp only [slug_to_uuid, hdata, hlen, mapOptions_charSextet hsex, if_true]
  rw [fromSextets_toSextets (uuidBytes u) hbytes, bytesToNat_uuidBytes h]

theorem except_bind_ok {ε α β : Type} (a : α) (f : α → Except ε β) :
    (Except.ok a >>= f) = f a := rfl

theorem except_bind_err {ε α β : Type} (e : ε) (f : α → Except ε β) :
    ((Except.error e : Except ε α) >>= f) = Except.error e := rfl

/-! The claim theorems. -/

/-- C1: for every path segment `p`, `CRUD.__getitem__(p)` first evaluates
`mapper.is_id(p)`.  If it is false the collection raises `KeyError` without
ever calling `fetch_object` or touching storage — the result is `KeyError`
uniformly for every possible `fetch_object` implementation.  If it is true,
`p` is resolved via `traverse_to_object`. -/
theorem crud_getitem_is_id_gate {Obj Id : Type} (c : Crud Obj Id) (p : String) :
    (c.mapper.is_id p = false →
      ∀ f : Id → Except Err Obj,
        Crud.getitem { c with fetch_object := f } p = .error .keyError) ∧
    (c.mapper.is_id p = true → c.getitem p = c.traverse_to_object p) := by
  constructor
  · intro h f
    simp [Crud.getitem, h]
  · intro h
    simp [Crud.getitem, h]

/-- Witness for C1: the nine-character segment `"not-an-id"` is rejected
with `KeyError`; the encoded slug of id 5 is resolved via
`traverse_to_object`. -/
theorem crud_getitem_is_id_gate_witness :
    Crud.getitem sampleCrud "not-an-id" = .error .keyError ∧
    Crud.getitem sampleCrud (uuid_to_slug 5) =
      sampleCrud.traverse_to_object (uuid_to_slug 5) := by
  constructor
  · exact (crud_getitem_is_id_gate sampleCrud "not-an-id").1 (by decide)
      sampleCrud.fetch_object
  · exact (crud_getitem_is_id_gate sampleCrud (uuid_to_slug 5)).2 (by decide)

/-- C2: for every domain object of a registered model whose identifier fits
in 128 bits, the default mapper round-trips: the object encodes to a path
and decoding that path yields exactly the object's identifier. -/
theorem mapper_roundtrip {Obj : Type} (uuid_of : Obj → Nat) (o : Obj)
    (h : uuid_of o < 2 ^ 128) :
    ∃ p : String,
      (Base64UUIDMapper uuid_of).get_path_from_object o = .ok (.str p) ∧
      (Base64UUIDMapper uuid_of).get_id_from_path p = .ok (uuid_of o) :=
  ⟨uuid_to_slug (uuid_of o), rfl, slug_to_uuid_uuid_to_slug h⟩

/-- Witness for C2 at the concrete identifier 123. -/
theorem mapper_roundtrip_witness :
    (123 : Nat) < 2 ^ 128 ∧
    ∃ p : String,
      (Base64UUIDMapper (fun o : Nat => o)).get_path_from_object 123 = .ok (.str p) ∧
      (Base64UUIDMapper (fun o : Nat => o)).get_id_from_path p = .ok 123 :=
  ⟨by norm_num, mapper_roundtrip (fun o : Nat => o) 123 (by norm_num)⟩

/-- C3: on a Resource whose lineage was never set (the `__parent__`
attribute does not exist), both `get_path` and `get_title` fail with the
lineage assertion and return no value. -/
theorem resource_lineage_precondition {Obj Id : Type} (r : Resource Obj Id)
    (h : r.__parent__ = none) :
    r.get_path = .error .assertLineage ∧ r.get_title = .error .assertLineage := by
  refine ⟨?_, ?_⟩ <;> simp [Resource.get_path, Resource.get_title, h]

/-- Witness for C3: a freshly constructed resource (lineage never set). -/
theorem resource_lineage_precondition_witness :
    (Resource.init 7 : Resource Nat Nat).get_path = .error .assertLineage ∧
    (Resource.init 7 : Resource Nat Nat).get_title = .error .assertLineage :=
  resource_lineage_precondition (Resource.init 7) rfl

/-- C4: `traverse_to_object` is exactly the composition of
`mapper.get_id_from_path`, then `fetch_object`, then `wrap_to_resource`;
and a `NotFound` miss signalled by either resolution step becomes the
overall result — a recoverable traversal miss, not a different fatal
error. -/
theorem traverse_to_object_composition {Obj Id : Type} (c : Crud Obj Id) (p : String) :
    (c.traverse_to_object p =
      c.mapper.get_id_from_path p >>= fun i =>
        c.fetch_object i >>= fun o => c.wrap_to_resource o) ∧
    (c.mapper.get_id_from_path p = .error .notFound →
      c.traverse_to_object p = .error .notFound) ∧
    (∀ i, c.mapper.get_id_from_path p = .ok i →
      c.fetch_object i = .error .notFound →
      c.traverse_to_object p = .error .notFound) := by
  refine ⟨rfl, ?_, ?_⟩
  · intro h
    simp [Crud.traverse_to_object, h, except_bind_err]
  · intro i hi hf
    simp [Crud.traverse_to_object, hi, hf, except_bind_ok, except_bind_err]

/-- Witness for C4: id 200 decodes but is not a row of the sample storage
(which only knows ids below 100), so the traversal signals `NotFound`. -/
theorem traverse_to_object_composition_witness :
    sampleCrud.traverse_to_object (uuid_to_slug 200) = .error .notFound :=
  (traverse_to_object_composition sampleCrud (uuid_to_slug 200)).2.2 200
    (by rfl) (by rfl)

/-- C5 counterexample: `noResourceCrud` is a fully constructed collection —
configuration succeeds and yields a value — and it is the first request-time
wrap of an object that raises `NotImplementedError`, contradicting the
claim that the failure happens at configuration/start-up time and not at
request time. -/
theorem unimplemented_resource_counterexample :
    noResourceCrud.has_Resource = false ∧
    noResourceCrud.make_resource 3 = .error .notImplementedError ∧
    noResourceCrud.wrap_to_resource 3 = .error .notImplementedError :=
  ⟨rfl, rfl, rfl⟩

/-- C5 amended: a CRUD Collection subclass that supplies no `Resource`
attribute fails fatally with `NotImplementedError` at request time, when an
object is first wrapped (`make_resource` / `wrap_to_resource`);
constructing the collection itself does not fail. -/
theorem unimplemented_resource_fails_at_wrap {Obj Id : Type} (c : Crud Obj Id)
    (h : c.has_Resource = false) (obj : Obj) :
    c.make_resource obj = .error .notImplementedError ∧
    c.wrap_to_resource obj = .error .notImplementedError := by
  have hm : c.make_resource obj = .error .notImplementedError := by
    simp [Crud.make_resource, h]
  refine ⟨hm, ?_⟩
  simp [Crud.wrap_to_resource, hm, except_bind_err]

/-- Witness for the amended C5 on a concrete collection and object. -/
theorem unimplemented_resource_fails_at_wrap_witness :
    noResourceCrud.make_resource 4 = .error .notImplementedError ∧
    noResourceCrud.wrap_to_resource 4 = .error .notImplementedError :=
  unimplemented_resource_fails_at_wrap noResourceCrud rfl 4

/-- C6: `wrap_to_resource(o)` builds a Resource wrapping `o` and sets its
lineage to `parent =` the CRUD collection itself and `name =` the path the
mapper computed for `o`; when the mapper does not produce a well-formed
path string the call fails — a non-string path trips the
`assert type(path) == str` defect (filed as `MappingError` in the spec's
taxonomy), and an error raised by the mapper itself (such as
`Err.mappingError`) propagates out unchanged. -/
theorem wrap_to_resource_lineage {Obj Id : Type} (c : Crud Obj Id) (obj : Obj)
    (hres : c.has_Resource = true) :
    (∀ s, c.mapper.get_path_from_object obj = .ok (.str s) →
      c.wrap_to_resource obj =
        .ok { obj := obj, __parent__ := some c, __name__ := some s }) ∧
    (c.mapper.get_path_from_object obj = .ok .nonStr →
      c.wrap_to_resource obj = .error .assertPathType) ∧
    (∀ e, c.mapper.get_path_from_object obj = .error e →
      c.wrap_to_resource obj = .error e) := by
  have hm : c.make_resource obj = .ok (Resource.init obj) := by
    simp [Crud.make_resource, hres]
  refine ⟨?_, ?_, ?_⟩
  · intro s hs
    simp [Crud.wrap_to_resource, hm, hs, except_bind_ok, Resource.make_lineage,
      Resource.init]
  · intro hs
    simp [Crud.wrap_to_resource, hm, hs, except_bind_ok]
  · intro e he
    simp [Crud.wrap_to_resource, hm, he, except_bind_ok, except_bind_err]

/-- Witness for C6: object 5 wraps with lineage set to the collection and
the encoded path, and the broken mapper of `badPathCrud` (non-string path)
trips the path-type assertion. -/
theorem wrap_to_resource_lineage_witness :
    sampleCrud.wrap_to_resource 5 =
      .ok { obj := 5, __parent__ := some sampleCrud,
            __name__ := some (uuid_to_slug 5) } ∧
    badPathCrud.wrap_to_resource 5 = .error .assertPathType :=
  ⟨(wrap_to_resource_lineage sampleCrud 5 rfl).1 (uuid_to_slug 5) rfl,
   (wrap_to_resource_lineage badPathCrud 5 rfl).2.1 rfl⟩

/-- C7: `Admin.__getitem__(n)` raises `KeyError` when `n` is not a key of
`children`, and returns exactly the registered child object when it is. -/
theorem admin_getitem_lookup {Child Res : Type} (a : Admin Child Res) (n : String) :
    (a.children.lookup n = Option.none → a.getitem n = .error .keyError) ∧
    (∀ child, a.children.lookup n = Option.some child → a.getitem n = .ok child) := by
  constructor
  · intro h
    simp [Admin.getitem, h]
  · intro child h
    simp [Admin.getitem, h]

/-- Witness for C7: the registered name `"user"` returns its child, the
unregistered name `"payments"` raises `KeyError`. -/
theorem admin_getitem_lookup_witness :
    sampleAdmin.getitem "user" = .ok 1 ∧
    sampleAdmin.getitem "payments" = .error .keyError :=
  ⟨(admin_getitem_lookup sampleAdmin "user").2 1 (by decide),
   (admin_getitem_lookup sampleAdmin "payments").1 (by decide)⟩

/-- C8: every object that wraps successfully yields a resource whose path
equals the mapper's encoding of the object, and whose title defaults to
that same path. -/
theorem wrapped_resource_path_consistency {Obj Id : Type} (c : Crud Obj Id)
    (obj : Obj) (r : Resource Obj Id) (h : c.wrap_to_resource obj = .ok r) :
    r.get_path = c.mapper.get_path_from_object obj ∧ r.get_title = r.get_path := by
  cases hres : c.has_Resource with
  | false =>
    simp [Crud.wrap_to_resource, Crud.make_resource, hres, except_bind_err] at h
  | true =>
    rcases hp : c.mapper.get_path_from_object obj with e | v
    · simp [Crud.wrap_to_resource, Crud.make_resource, hres, hp, except_bind_ok,
        except_bind_err] at h
    · cases v with
      | nonStr =>
        simp [Crud.wrap_to_resource, Crud.make_resource, hres, hp,
          except_bind_ok] at h
      | str s =>
        simp [Crud.wrap_to_resource, Crud.make_resource, hres, hp,
          except_bind_ok, Resource.make_lineage, Resource.init] at h
        subst h
        simp [Resource.get_path, Resource.get_title, hp]

/-- Witness for C8: wrapping object 9 in the sample collection. -/
theorem wrapped_resource_path_consistency_witness :
    ∃ r : Resource Nat Nat,
      sampleCrud.wrap_to_resource 9 = .ok r ∧
      r.get_path = sampleCrud.mapper.get_path_from_object 9 ∧
      r.get_title = r.get_path :=
  ⟨{ obj := 9, __parent__ := some sampleCrud, __name__ := some (uuid_to_slug 9) },
   rfl, wrapped_resource_path_consistency sampleCrud 9 _ rfl⟩

/-- C9 counterexample: `PyObj.int 0` is not `None`, yet
`get_admin_object_url` returns `None` for it instead of resolving it and
returning its canonical URL (`some "res/"` with the sample collaborators):
the claim's "otherwise" branch does not hold for falsy non-`None`
objects. -/
theorem admin_url_none_counterexample :
    PyObj.int 0 ≠ PyObj.none ∧
    sampleAdmin.get_admin_object_url (PyObj.int 0) Option.none = Option.none ∧
    Option.none ≠ Option.some
      (sampleAdmin.resource_url (sampleAdmin.get_admin_resource (PyObj.int 0)) []) := by
  refine ⟨by decide, rfl, by simp⟩

/-- C9 amended: `get_admin_object_url(obj, view_name)` returns `None` when
`obj` is falsy (in particular when it is `None`); otherwise it resolves the
registered admin resource and returns its canonical URL, suffixed with the
view name when a truthy (non-empty) one is given. -/
theorem admin_url_truthiness {Child Res : Type} (a : Admin Child Res)
    (obj : PyObj) (v : Option String) :
    (obj.truthy = false → a.get_admin_object_url obj v = Option.none) ∧
    (obj.truthy = true → strOptTruthy v = true →
      a.get_admin_object_url obj v =
        Option.some (a.resource_url (a.get_admin_resource obj) [v.getD ""])) ∧
    (obj.truthy = true → strOptTruthy v = false →
      a.get_admin_object_url obj v =
        Option.some (a.resource_url (a.get_admin_resource obj) [])) := by
  refine ⟨fun h => ?_, fun h hv => ?_, fun h hv => ?_⟩ <;>
    simp [Admin.get_admin_object_url, *]

/-- Witness for the amended C9: `None` input, a truthy object with a view
name, and a truthy object without one. -/
theorem admin_url_truthiness_witness :
    sampleAdmin.get_admin_object_url PyObj.none Option.none = Option.none ∧
    sampleAdmin.get_admin_object_url (PyObj.instanceObj 1) (Option.some "edit") =
      Option.some (sampleAdmin.resource_url
        (sampleAdmin.get_admin_resource (PyObj.instanceObj 1)) ["edit"]) ∧
    sampleAdmin.get_admin_object_url (PyObj.instanceObj 1) Option.none =
      Option.some (sampleAdmin.resource_url
        (sampleAdmin.get_admin_resource (PyObj.instanceObj 1)) []) :=
  ⟨(admin_url_truthiness sampleAdmin PyObj.none Option.none).1 rfl,
   (admin_url_truthiness sampleAdmin (PyObj.instanceObj 1) (Option.some "edit")).2.1
     rfl rfl,
   (admin_url_truthiness sampleAdmin (PyObj.instanceObj 1) Option.none).2.2
     rfl rfl⟩

/-- C10: `get_admin_object_url` returns `None` for every falsy input object
— numeric zero and empty containers included, not only `None` — and such an
object is never resolved: the result is `None` for every possible
`get_admin_resource` implementation. -/
theorem admin_url_falsy_none {Child Res : Type} (a : Admin Child Res)
    (obj : PyObj) (v : Option String) (h : obj.truthy = false) :
    a.get_admin_object_url obj v = Option.none ∧
    ∀ g : PyObj → Res,
      Admin.get_admin_object_url { a with get_admin_resource := g } obj v =
        Option.none := by
  constructor
  · simp [Admin.get_admin_object_url, h]
  · intro g
    simp [Admin.get_admin_object_url, h]

/-- Witness for C10: numeric zero and the empty list are not `None`, yet
both yield `None`. -/
theorem admin_url_falsy_none_witness :
    (PyObj.int 0 ≠ PyObj.none ∧
      sampleAdmin.get_admin_object_url (PyObj.int 0) (Option.some "show") =
        Option.none) ∧
    (PyObj.list 0 ≠ PyObj.none ∧
      sampleAdmin.get_admin_object_url (PyObj.list 0) Option.none = Option.none) :=
  ⟨⟨by decide,
    (admin_url_falsy_none sampleAdmin (PyObj.int 0) (Option.some "show") rfl).1⟩,
   ⟨by decide,
    (admin_url_falsy_none sampleAdmin (PyObj.list 0) Option.none rfl).1⟩⟩

end Websauna
